import Mathlib

/-!
Shallow embedding of the pathfinder career-recommendation engine
(src/backend/recommender.py, src/backend/database.py, src/backend/main.py).

Python floats are modelled as rationals, Python lists as `List`, a Python
`set` built from a list as the list deduplicated keeping first occurrences
(CPython leaves set iteration order unspecified; this embedding fixes the
insertion order as one admissible order), and a Python `dict` as an
association list with in-place update on key collision, which matches
CPython's insertion-ordered dict semantics.
-/

/- Batteries seals the rational-number operations; reopening them lets
concrete scores be evaluated by `decide`. -/
attribute [local semireducible] Rat.mul Rat.inv Rat.add Rat.sub

namespace Pathfinder

/-- Python `str.lower()`, character by character (catalog data is ASCII). -/
def lowerStr (s : String) : String := String.mk (s.data.map Char.toLower)

/-- `needle` is a prefix of `hay`, on character lists. -/
def prefixOfL : List Char → List Char → Bool
  | [], _ => true
  | _ :: _, [] => false
  | a :: as, b :: bs => a == b && prefixOfL as bs

/-- `needle` occurs contiguously somewhere in `hay`. -/
def subStrAt (needle : List Char) : List Char → Bool
  | [] => prefixOfL needle []
  | c :: rest => prefixOfL needle (c :: rest) || subStrAt needle rest

/-- Python `needle in hay` on strings (substring containment). -/
def strIn (needle hay : String) : Bool := subStrAt needle.data hay.data

/-- Iteration order of a Python `set` built from a list: deduplicate keeping
first occurrences.  `seen` accumulates the elements already emitted. -/
def setList (seen : List String) : List String → List String
  | [] => []
  | s :: t => if s ∈ seen then setList seen t else s :: setList (s :: seen) t

/-- Python `round(x, 2)` on the rational values this engine produces. -/
def round2 (q : ℚ) : ℚ := (round (q * 100) : ℤ) / 100

/-- Python dict assignment `d[k] = v`: update in place if the key exists,
else append at the end (insertion order). -/
def dictInsert (d : List (String × String)) (k v : String) : List (String × String) :=
  if d.any (fun kv => decide (kv.1 = k)) then
    d.map (fun kv => if kv.1 = k then (kv.1, v) else kv)
  else d ++ [(k, v)]

/-- The dict comprehension `{s.lower(): s for s in l}` from recommender.py. -/
def buildDict (l : List String) : List (String × String) :=
  l.foldl (fun d s => dictInsert d (lowerStr s) s) []

/-- Python `d.get(k)` / `d[k]` on the association-list dict model. -/
def dictGet (d : List (String × String)) (k : String) : Option String :=
  (d.find? (fun kv => decide (kv.1 = k))).map Prod.snd

/-- One record of CAREER_DATABASE (database.py). -/
structure Career where
  required_skills : List String
  nice_to_have : List String
  description : String
  avg_salary : String
  growth_outlook : String
  education_required : String
  industry : List String
deriving DecidableEq

/-- StudentProfile (models.py). -/
structure StudentProfile where
  skills : List String
  interests : List String
  education_level : String
  gpa : Option ℚ
  experience_years : Option Nat

/-- CareerRecommendation (models.py). -/
structure CareerRecommendation where
  career : String
  match_score : ℚ
  matching_skills : List String
  skills_to_learn : List String
  description : String
  salary_info : String
  growth_outlook : String
deriving DecidableEq

/-- The gap-analysis dict returned by analyze_skills_gap (recommender.py). -/
structure GapAnalysis where
  target_career : String
  current_skills : List String
  required_skills : List String
  nice_to_have : List String
  missing_required : List String
  missing_nice : List String
  matching_required : List String
  matching_nice : List String
  completion_percentage : ℚ
  priority_skills : List String
deriving DecidableEq

/-- One resource entry from _get_learning_resources (recommender.py). -/
structure LearningResource where
  type : String
  name : String
  platform : String
  url : String
deriving DecidableEq

/-- One learning-path module (recommender.py get_learning_path). -/
structure LearningModule where
  order : Nat
  skill : String
  difficulty : String
  estimated_weeks : Nat
  resources : List LearningResource
deriving DecidableEq

/-- The /learning-path endpoint response envelope (main.py). -/
structure LearningPathResponse where
  target_career : String
  learning_path : List LearningModule
  total_weeks : Nat
  total_skills : Nat
deriving DecidableEq

/-- CAREER_DATABASE from database.py, in dict insertion order. -/
def CAREER_DATABASE : List (String × Career) := [
  ("Data Scientist", {
    required_skills := ["Python", "Machine Learning", "Statistics", "SQL", "Data Visualization",
      "Pandas", "NumPy", "Scikit-learn", "Deep Learning", "Data Analysis"],
    nice_to_have := ["TensorFlow", "PyTorch", "Spark", "AWS", "R", "Tableau"],
    description := "Analyze complex data to help companies make data-driven decisions",
    avg_salary := "$120,000 - $160,000",
    growth_outlook := "22% (Much faster than average)",
    education_required := "Bachelor\x27s or Master\x27s in Computer Science, Statistics, or related field",
    industry := ["Technology", "Finance", "Healthcare", "E-commerce"] }),
  ("Software Engineer", {
    required_skills := ["Python", "Java", "Algorithms", "Data Structures", "System Design",
      "Git", "Testing", "Debugging", "API", "Databases"],
    nice_to_have := ["Docker", "Kubernetes", "AWS", "Microservices", "CI/CD"],
    description := "Design, develop, and maintain software applications and systems",
    avg_salary := "$110,000 - $150,000",
    growth_outlook := "25% (Much faster than average)",
    education_required := "Bachelor\x27s in Computer Science or related field",
    industry := ["Technology", "Finance", "Healthcare", "Entertainment"] }),
  ("Machine Learning Engineer", {
    required_skills := ["Python", "Machine Learning", "Deep Learning", "TensorFlow", "PyTorch",
      "MLOps", "Docker", "Kubernetes", "Cloud", "Algorithms"],
    nice_to_have := ["Spark", "AWS", "Azure", "Model Optimization", "Edge Computing"],
    description := "Build and deploy machine learning models at scale in production",
    avg_salary := "$140,000 - $180,000",
    growth_outlook := "21% (Much faster than average)",
    education_required := "Bachelor\x27s or Master\x27s in CS, ML, or related field",
    industry := ["Technology", "AI Companies", "Research", "Autonomous Vehicles"] }),
  ("Full Stack Developer", {
    required_skills := ["JavaScript", "React", "Node.js", "HTML", "CSS", "SQL",
      "Git", "API", "REST", "Express"],
    nice_to_have := ["TypeScript", "Next.js", "MongoDB", "Docker", "AWS"],
    description := "Develop both front-end and back-end of web applications",
    avg_salary := "$100,000 - $140,000",
    growth_outlook := "23% (Much faster than average)",
    education_required := "Bachelor\x27s in Computer Science or self-taught with portfolio",
    industry := ["Technology", "Startups", "E-commerce", "Media"] }),
  ("Data Engineer", {
    required_skills := ["Python", "SQL", "Spark", "Kafka", "ETL", "Data Pipelines",
      "AWS", "Airflow", "Databases", "Big Data"],
    nice_to_have := ["Snowflake", "Databricks", "Kubernetes", "Terraform"],
    description := "Build and maintain data infrastructure and pipelines",
    avg_salary := "$115,000 - $155,000",
    growth_outlook := "20% (Much faster than average)",
    education_required := "Bachelor\x27s in Computer Science or Data Engineering",
    industry := ["Technology", "Finance", "E-commerce", "Healthcare"] }),
  ("DevOps Engineer", {
    required_skills := ["Linux", "Docker", "Kubernetes", "CI/CD", "AWS", "Jenkins",
      "Terraform", "Ansible", "Git", "Monitoring"],
    nice_to_have := ["Python", "Shell", "Azure", "GCP", "Security"],
    description := "Automate and optimize software development and deployment processes",
    avg_salary := "$110,000 - $145,000",
    growth_outlook := "20% (Much faster than average)",
    education_required := "Bachelor\x27s in Computer Science or System Administration",
    industry := ["Technology", "Cloud Services", "Finance", "All Industries"] }),
  ("Frontend Developer", {
    required_skills := ["JavaScript", "React", "HTML", "CSS", "TypeScript",
      "Git", "Responsive Design", "API", "Testing"],
    nice_to_have := ["Vue.js", "Angular", "Redux", "Webpack", "Performance Optimization"],
    description := "Create user interfaces and experiences for web applications",
    avg_salary := "$90,000 - $130,000",
    growth_outlook := "23% (Much faster than average)",
    education_required := "Bachelor\x27s in CS or self-taught with strong portfolio",
    industry := ["Technology", "Design Agencies", "E-commerce", "Media"] }),
  ("Backend Developer", {
    required_skills := ["Python", "Java", "Node.js", "SQL", "API", "REST",
      "Databases", "System Design", "Git", "Security"],
    nice_to_have := ["Microservices", "GraphQL", "Docker", "AWS", "Caching"],
    description := "Develop server-side logic and database management",
    avg_salary := "$105,000 - $140,000",
    growth_outlook := "22% (Much faster than average)",
    education_required := "Bachelor\x27s in Computer Science",
    industry := ["Technology", "Finance", "SaaS", "E-commerce"] }),
  ("Cloud Architect", {
    required_skills := ["AWS", "Azure", "GCP", "System Design", "Networking",
      "Security", "Docker", "Kubernetes", "Terraform", "Microservices"],
    nice_to_have := ["Multi-Cloud", "Cost Optimization", "Compliance", "Serverless"],
    description := "Design and oversee cloud computing strategies",
    avg_salary := "$135,000 - $175,000",
    growth_outlook := "19% (Much faster than average)",
    education_required := "Bachelor\x27s + Cloud Certifications",
    industry := ["Technology", "Consulting", "Enterprise", "All Industries"] }),
  ("AI Research Scientist", {
    required_skills := ["Machine Learning", "Deep Learning", "Python", "Mathematics",
      "Research", "PyTorch", "TensorFlow", "NLP", "Computer Vision", "Statistics"],
    nice_to_have := ["Publications", "PhD", "Reinforcement Learning", "Transformers"],
    description := "Conduct cutting-edge research in artificial intelligence",
    avg_salary := "$150,000 - $200,000+",
    growth_outlook := "24% (Much faster than average)",
    education_required := "Master\x27s or PhD in CS, AI, or related field",
    industry := ["Research Labs", "Big Tech", "AI Startups", "Academia"] }),
  ("Business Analyst", {
    required_skills := ["Data Analysis", "Excel", "SQL", "Business Intelligence",
      "Communication", "Problem Solving", "Requirements Gathering", "Analytics"],
    nice_to_have := ["Python", "Tableau", "Power BI", "Agile", "Project Management"],
    description := "Bridge business needs and technical solutions through data analysis",
    avg_salary := "$80,000 - $110,000",
    growth_outlook := "14% (Faster than average)",
    education_required := "Bachelor\x27s in Business, Economics, or related field",
    industry := ["Consulting", "Finance", "Technology", "Healthcare"] }),
  ("Product Manager", {
    required_skills := ["Product Strategy", "Communication", "Agile", "User Research",
      "Analytics", "Roadmap Planning", "Stakeholder Management", "Problem Solving"],
    nice_to_have := ["Technical Background", "SQL", "A/B Testing", "Design Thinking"],
    description := "Define product vision and strategy, working with engineering and design",
    avg_salary := "$120,000 - $160,000",
    growth_outlook := "18% (Much faster than average)",
    education_required := "Bachelor\x27s in any field + product experience",
    industry := ["Technology", "SaaS", "E-commerce", "Finance"] })
]

/-- get_career_details (database.py): exact, case-sensitive key lookup. -/
def get_career_details (career_name : String) : Option Career :=
  (CAREER_DATABASE.find? (fun e => decide (e.1 = career_name))).map Prod.snd

/-- calculate_skill_match_score (recommender.py lines 21-51). -/
def calculate_skill_match_score (user_skills career_skills nice_to_have : List String) : ℚ :=
  if career_skills = [] then 0 else
  let user_skills_lower := setList [] (user_skills.map lowerStr)
  let required_lower := setList [] (career_skills.map lowerStr)
  let nice_lower := setList [] (nice_to_have.map lowerStr)
  let required_matches := (user_skills_lower.filter (fun s => decide (s ∈ required_lower))).length
  let required_score : ℚ := (required_matches : ℚ) / (required_lower.length : ℚ) * 70
  let nice_score : ℚ :=
    if nice_to_have = [] then 0
    else ((user_skills_lower.filter (fun s => decide (s ∈ nice_lower))).length : ℚ)
          / (nice_lower.length : ℚ) * 30
  round2 (required_score + nice_score)

/-- calculate_interest_boost (recommender.py lines 53-80).  Every catalog
record carries the industry field, so the source's guard
`if 'industry' in career_details` is always taken. -/
def calculate_interest_boost (interests : List String) (career_name : String)
    (details : Career) : ℚ :=
  if interests = [] then 0 else
  let interests_lower := interests.map lowerStr
  let career_lower := lowerStr career_name
  let boost := interests_lower.foldl
    (fun b i =>
      let b1 := if strIn i career_lower then b + 5 else b
      details.industry.foldl (fun b2 ind => if strIn i (lowerStr ind) then b2 + 3 else b2) b1)
    0
  min boost 10

/-- calculate_experience_match (recommender.py lines 82-99); the
career-details argument is unused in the source too. -/
def calculate_experience_match (user_experience : Nat) (_details : Career) : ℚ :=
  if user_experience = 0 then 0
  else if user_experience < 2 then 2
  else if user_experience < 5 then 5
  else 8

/-- The loop body of recommend_careers (recommender.py lines 111-162):
the CareerRecommendation built for one catalog entry. -/
def recommend_one (profile : StudentProfile) (career : String) (details : Career) :
    CareerRecommendation :=
  let skill_score := calculate_skill_match_score profile.skills details.required_skills
    details.nice_to_have
  let interest_boost := calculate_interest_boost profile.interests career details
  let experience_boost := calculate_experience_match (profile.experience_years.getD 0) details
  let final_score := min (skill_score + interest_boost + experience_boost) 100
  let user_skills_lower := setList [] (profile.skills.map lowerStr)
  let required_lower := buildDict details.required_skills
  let matching_skills := user_skills_lower.filterMap (fun s => dictGet required_lower s)
  let skills_to_learn :=
    (details.required_skills.filter (fun s => !(decide (lowerStr s ∈ user_skills_lower)))).take 5
  { career := career, match_score := final_score, matching_skills := matching_skills,
    skills_to_learn := skills_to_learn, description := details.description,
    salary_info := details.avg_salary, growth_outlook := details.growth_outlook }

/-- The ordering used to model Python's stable
`sort(key=lambda x: x.match_score, reverse=True)`: `a` may come before `b`
when `a`'s score is at least `b`'s. -/
def scoreGE (a b : CareerRecommendation) : Prop := b.match_score ≤ a.match_score

instance : DecidableRel scoreGE :=
  fun a b => inferInstanceAs (Decidable (b.match_score ≤ a.match_score))

instance : IsTotal CareerRecommendation scoreGE :=
  ⟨fun a b => le_total b.match_score a.match_score⟩

instance : IsTrans CareerRecommendation scoreGE :=
  ⟨fun _ _ _ h1 h2 => le_trans h2 h1⟩

/-- recommend_careers (recommender.py lines 101-167).  Python's `list.sort`
is a stable sort; a stable descending sort on the same key is modelled by
insertion sort with `scoreGE`.  The Python default for top_n is 10, passed
explicitly here. -/
def recommend_careers (profile : StudentProfile) (top_n : Nat) : List CareerRecommendation :=
  let recommendations := CAREER_DATABASE.map (fun e => recommend_one profile e.1 e.2)
  (recommendations.insertionSort scoreGE).take top_n

/-- analyze_skills_gap (recommender.py lines 169-231); `none` is the
`{"error": "Career not found"}` dict. -/
def analyze_skills_gap (profile : StudentProfile) (target_career : String) :
    Option GapAnalysis :=
  match get_career_details target_career with
  | none => none
  | some career_details =>
    let user_skills_lower := setList [] (profile.skills.map lowerStr)
    let required_skills := career_details.required_skills
    let nice_to_have := career_details.nice_to_have
    let required_lower := buildDict required_skills
    let nice_lower := buildDict nice_to_have
    let missing_required := required_lower.filterMap
      (fun kv => if kv.1 ∈ user_skills_lower then none else some kv.2)
    let missing_nice := nice_lower.filterMap
      (fun kv => if kv.1 ∈ user_skills_lower then none else some kv.2)
    let matching_required := user_skills_lower.filterMap (fun s => dictGet required_lower s)
    let matching_nice := user_skills_lower.filterMap (fun s => dictGet nice_lower s)
    let completion : ℚ :=
      if required_skills = [] then 0
      else (matching_required.length : ℚ) / (required_skills.length : ℚ) * 100
    let priority_skills := missing_required.take 3 ++ missing_nice.take 2
    some { target_career := target_career, current_skills := profile.skills,
           required_skills := required_skills, nice_to_have := nice_to_have,
           missing_required := missing_required, missing_nice := missing_nice,
           matching_required := matching_required, matching_nice := matching_nice,
           completion_percentage := round2 completion, priority_skills := priority_skills }

/-- _get_learning_resources (recommender.py lines 274-300). -/
def get_learning_resources (skill : String) : List LearningResource :=
  [ { type := "Course", name := skill ++ " Complete Course", platform := "Coursera",
      url := "https://www.coursera.org/search?query=" ++ (skill.replace " " "%20") },
    { type := "Documentation", name := "Official " ++ skill ++ " Docs",
      platform := "Official Website", url := "#" },
    { type := "Practice", name := skill ++ " Exercises",
      platform := "LeetCode/HackerRank", url := "https://leetcode.com" } ]

/-- The per-skill difficulty assignment inside get_learning_path
(recommender.py lines 257-262). -/
def moduleDifficulty (skill : String) : String :=
  if skill ∈ ["Python", "JavaScript", "HTML", "CSS", "Git"] then "beginner"
  else if skill ∈ ["Machine Learning", "Deep Learning", "System Design"] then "advanced"
  else "intermediate"

/-- skill_time_estimates (recommender.py lines 249-253); the lookup is only
ever applied to the three keys below. -/
def skill_time_estimates (difficulty : String) : Nat :=
  if difficulty = "beginner" then 8
  else if difficulty = "intermediate" then 12
  else if difficulty = "advanced" then 16
  else 0

/-- get_learning_path (recommender.py lines 233-272): empty list when the
gap analysis failed, else one module per priority skill, enumerated from 1. -/
def get_learning_path (profile : StudentProfile) (target_career : String) :
    List LearningModule :=
  match analyze_skills_gap profile target_career with
  | none => []
  | some gap_analysis =>
    gap_analysis.priority_skills.enum.map (fun p =>
      { order := p.1 + 1, skill := p.2, difficulty := moduleDifficulty p.2,
        estimated_weeks := skill_time_estimates (moduleDifficulty p.2),
        resources := get_learning_resources p.2 })

/-- The /learning-path endpoint (main.py lines 153-184): 404 (`none`) when
the engine returned an empty path, else the path plus aggregate totals. -/
def learning_path_endpoint (profile : StudentProfile) (target_career : String) :
    Option LearningPathResponse :=
  let path := get_learning_path profile target_career
  if path.isEmpty then none
  else some { target_career := target_career, learning_path := path,
              total_weeks := (path.map (fun m => m.estimated_weeks)).sum,
              total_skills := path.length }

/-! ### Basic lemmas about the Python-set model -/

theorem mem_setList : ∀ (l : List String) (seen a), a ∈ setList seen l ↔ a ∈ l ∧ a ∉ seen := by
  intro l
  induction l with
  | nil => intro seen a; simp [setList]
  | cons s t ih =>
    intro seen a
    by_cases hs : s ∈ seen
    · simp only [setList, if_pos hs, ih]
      constructor
      · rintro ⟨ha, hn⟩; exact ⟨List.mem_cons_of_mem _ ha, hn⟩
      · rintro ⟨ha, hn⟩
        rcases List.mem_cons.1 ha with rfl | ha
        · exact absurd hs hn
        · exact ⟨ha, hn⟩
    · simp only [setList, if_neg hs, List.mem_cons, ih]
      by_cases has : a = s
      · subst has; simp [hs]
      · simp [has, List.mem_cons]

theorem setList_nodup : ∀ (l : List String) (seen), (setList seen l).Nodup := by
  intro l
  induction l with
  | nil => intro seen; simp [setList]
  | cons s t ih =>
    intro seen
    by_cases hs : s ∈ seen
    · simpa [setList, if_pos hs] using ih seen
    · simp only [setList, if_neg hs]
      refine List.nodup_cons.2 ⟨?_, ih _⟩
      intro hmem
      exact ((mem_setList t (s :: seen) s).1 hmem).2 (List.mem_cons_self _ _)

theorem toFinset_setList (l : List String) : (setList [] l).toFinset = l.toFinset := by
  ext a
  simp [List.mem_toFinset, mem_setList]

theorem length_setList (l : List String) : (setList [] l).length = l.toFinset.card := by
  rw [← toFinset_setList l, List.toFinset_card_of_nodup (setList_nodup l [])]

theorem length_setList_filter_mem (u r : List String) :
    ((setList [] u).filter (fun s => decide (s ∈ setList [] r))).length
      = (u.toFinset ∩ r.toFinset).card := by
  have hnd : ((setList [] u).filter (fun s => decide (s ∈ setList [] r))).Nodup :=
    (setList_nodup u []).filter _
  rw [← List.toFinset_card_of_nodup hnd]
  congr 1
  ext a
  simp only [List.mem_toFinset, List.mem_filter, decide_eq_true_eq, mem_setList,
    Finset.mem_inter, List.not_mem_nil, and_true, not_false_iff]

/-! ### C1: the skill-match formula -/

/-- The claimed closed form of skillMatch, written with case-insensitive
finite-set intersections exactly as the specification states it. -/
def skillMatchSpec (user_skills career_skills nice_to_have : List String) : ℚ :=
  if career_skills = [] then 0 else
  let u := (user_skills.map lowerStr).toFinset
  let r := (career_skills.map lowerStr).toFinset
  let n := (nice_to_have.map lowerStr).toFinset
  let niceScore : ℚ :=
    if nice_to_have = [] then 0 else ((u ∩ n).card : ℚ) / (n.card : ℚ) * 30
  round2 (((u ∩ r).card : ℚ) / (r.card : ℚ) * 70 + niceScore)

/-- **C1.** For every user skill list and career record, skillMatch is 0 when
the required list is empty and otherwise equals
round₂((|user ∩ required| / |required|)·70 + niceScore) with case-insensitive
set intersections, where niceScore is (|user ∩ nice| / |nice|)·30 for a
non-empty nice-to-have list and 0 for an empty one, so a career with no
nice-to-have entries can never earn the 30-point bucket. -/
theorem skill_match_score_spec (user_skills career_skills nice_to_have : List String) :
    calculate_skill_match_score user_skills career_skills nice_to_have
      = skillMatchSpec user_skills career_skills nice_to_have := by
  unfold calculate_skill_match_score skillMatchSpec
  by_cases hc : career_skills = []
  · simp [hc]
  · simp only [if_neg hc]
    rw [length_setList_filter_mem, length_setList_filter_mem, length_setList, length_setList]

/-! ### C2: the interest boost -/

/-- Per-interest contribution claimed by the spec: +5 when the interest is a
substring of the career name, +3 for each industry tag it is a substring of. -/
def interestContribution (i career_lower : String) (industry : List String) : ℚ :=
  (if strIn i career_lower then 5 else 0)
    + 3 * ((industry.filter (fun ind => strIn i (lowerStr ind))).length : ℚ)

theorem foldl_count_add (p : String → Bool) (c : ℚ) :
    ∀ (l : List String) (b : ℚ),
      l.foldl (fun acc x => if p x then acc + c else acc) b
        = b + c * ((l.filter p).length : ℚ) := by
  intro l
  induction l with
  | nil => intro b; simp
  | cons x t ih =>
    intro b
    by_cases hx : p x
    · rw [List.foldl_cons, if_pos hx, ih]
      simp only [List.filter_cons, hx, if_true, List.length_cons]
      push_cast
      ring
    · rw [List.foldl_cons, if_neg hx, ih]
      simp [List.filter_cons, hx]

theorem foldl_add_of_step (f : ℚ → String → ℚ) (g : String → ℚ)
    (hstep : ∀ b i, f b i = b + g i) :
    ∀ (l : List String) (b : ℚ), l.foldl f b = b + (l.map g).sum := by
  intro l
  induction l with
  | nil => intro b; simp
  | cons x t ih => intro b; simp [List.foldl_cons, hstep, ih, add_assoc]

/-- **C2.** The interest boost is 0 for an empty interest list and otherwise
is the per-interest sum of +5 for a case-insensitive substring hit on the
career name and +3 per industry tag hit, capped at a hard ceiling of 10; it
never exceeds 10. -/
theorem interest_boost_spec (interests : List String) (career_name : String) (details : Career) :
    calculate_interest_boost interests career_name details
      = (if interests = [] then 0
         else min ((interests.map (fun i =>
                interestContribution (lowerStr i) (lowerStr career_name) details.industry)).sum) 10)
    ∧ calculate_interest_boost interests career_name details ≤ 10 := by
  have hstep : ∀ (b : ℚ) (i : String),
      (let b1 := if strIn i (lowerStr career_name) then b + 5 else b
       details.industry.foldl (fun b2 ind => if strIn i (lowerStr ind) then b2 + 3 else b2) b1)
        = b + interestContribution i (lowerStr career_name) details.industry := by
    intro b i
    simp only [foldl_count_add, interestContribution]
    by_cases hi : strIn i (lowerStr career_name)
    · simp [hi]
      try ring
    · simp [hi]
      try ring
  have hmain : calculate_interest_boost interests career_name details
      = (if interests = [] then 0
         else min ((interests.map (fun i =>
                interestContribution (lowerStr i) (lowerStr career_name) details.industry)).sum) 10) := by
    unfold calculate_interest_boost
    by_cases hemp : interests = []
    · simp [hemp]
    · simp only [if_neg hemp]
      rw [foldl_add_of_step _ _ hstep, List.map_map, zero_add]
      rfl
  refine ⟨hmain, ?_⟩
  rw [hmain]
  by_cases hemp : interests = []
  · simp [hemp]
  · simp only [if_neg hemp]
    exact min_le_right _ _

/-! ### C4: empty skill list (corrected) -/

theorem skill_match_nil (career_skills nice_to_have : List String) :
    calculate_skill_match_score [] career_skills nice_to_have = 0 := by
  unfold calculate_skill_match_score
  by_cases hc : career_skills = []
  · simp [hc]
  · simp [hc, setList, round2]

theorem interest_boost_nil (career_name : String) (details : Career) :
    calculate_interest_boost [] career_name details = 0 := by
  simp [calculate_interest_boost]

/-- The profile exhibiting the counterexample: no skills, no interests, but
three years of experience. -/
def C4profile : StudentProfile := ⟨[], [], "High School", none, some 3⟩

/-- **C4 counterexample.** A profile with empty skills but
experienceYears = 3 does not get score 0 for every career: the experience
boost alone puts every career at 5. -/
theorem recommend_empty_skills_counterexample :
    ¬ (∀ r ∈ recommend_careers C4profile 10, r.match_score = 0) := by decide

/-- **C4 (amended).** For every profile with an empty skills list, an empty
interests list and experienceYears unset or 0, recommend does not fail (it
returns min(topN, catalog size) results) and yields score 0 for every
career; an empty skills list alone only zeroes the skill-match part, while
interest and experience boosts can still contribute. -/
theorem recommend_empty_skills_amended (edu : String) (gpa : Option ℚ) (e : Option Nat)
    (he : e = none ∨ e = some 0) (top_n : Nat) :
    (recommend_careers ⟨[], [], edu, gpa, e⟩ top_n).length = min top_n CAREER_DATABASE.length
    ∧ ∀ r ∈ recommend_careers ⟨[], [], edu, gpa, e⟩ top_n, r.match_score = 0 := by
  constructor
  · simp only [recommend_careers]
    rw [List.length_take, List.length_insertionSort, List.length_map]
  · intro r hr
    have hr' : r ∈ (CAREER_DATABASE.map
        (fun e' => recommend_one ⟨[], [], edu, gpa, e⟩ e'.1 e'.2)).insertionSort scoreGE :=
      List.mem_of_mem_take hr
    rw [List.mem_insertionSort] at hr'
    obtain ⟨entry, _, rfl⟩ := List.mem_map.1 hr'
    show min (calculate_skill_match_score [] entry.2.required_skills entry.2.nice_to_have
        + calculate_interest_boost [] entry.1 entry.2
        + calculate_experience_match ((e : Option Nat).getD 0) entry.2) 100 = 0
    have hexp : (e : Option Nat).getD 0 = 0 := by rcases he with rfl | rfl <;> rfl
    rw [skill_match_nil, interest_boost_nil, hexp]
    simp [calculate_experience_match]

/-! ### C3: recommend output is truncated, sorted, stable -/

theorem filter_insertionSort_score (q : ℚ) (l : List CareerRecommendation) :
    (l.insertionSort scoreGE).filter (fun r => decide (r.match_score = q))
      = l.filter (fun r => decide (r.match_score = q)) := by
  set p : CareerRecommendation → Bool := fun r => decide (r.match_score = q) with hp
  have h1 : List.Sublist (l.filter p) l := List.filter_sublist l
  have hpw : (l.filter p).Pairwise scoreGE := by
    apply List.pairwise_of_forall_mem_list
    intro a ha b hb
    have ha' : a.match_score = q := by
      have := List.of_mem_filter ha
      simpa [hp] using this
    have hb' : b.match_score = q := by
      have := List.of_mem_filter hb
      simpa [hp] using this
    show b.match_score ≤ a.match_score
    rw [ha', hb']
  have h2 : List.Sublist (l.filter p) (l.insertionSort scoreGE) :=
    List.sublist_insertionSort hpw h1
  have hid : (l.filter p).filter p = l.filter p := by
    rw [List.filter_filter]
    simp only [Bool.and_self]
  have h4 : List.Sublist (l.filter p) ((l.insertionSort scoreGE).filter p) := by
    have := h2.filter p
    rwa [hid] at this
  have h3 : List.Perm ((l.insertionSort scoreGE).filter p) (l.filter p) :=
    (List.perm_insertionSort scoreGE l).filter p
  exact (h4.eq_of_length h3.length_eq.symm).symm

/-- **C3.** recommend returns at most topN results, sorted non-increasingly
by score, and careers with equal scores keep the catalog's original
iteration order (stable sort): for every score value, the equal-score
results form a prefix of the catalog-order scoring list filtered to that
score. -/
theorem recommend_sorted_stable (profile : StudentProfile) (top_n : Nat) :
    (recommend_careers profile top_n).length ≤ top_n
    ∧ (recommend_careers profile top_n).Pairwise
        (fun a b => b.match_score ≤ a.match_score)
    ∧ ∀ q : ℚ,
        (recommend_careers profile top_n).filter (fun r => decide (r.match_score = q))
          <+: (CAREER_DATABASE.map (fun e => recommend_one profile e.1 e.2)).filter
                (fun r => decide (r.match_score = q)) := by
  refine ⟨?_, ?_, ?_⟩
  · simp only [recommend_careers]
    rw [List.length_take]
    exact min_le_left _ _
  · have hs := List.sorted_insertionSort scoreGE
      (CAREER_DATABASE.map (fun e => recommend_one profile e.1 e.2))
    have ht := List.take_sublist top_n
      ((CAREER_DATABASE.map (fun e => recommend_one profile e.1 e.2)).insertionSort scoreGE)
    exact List.Pairwise.sublist ht hs
  · intro q
    have hpre := List.take_prefix top_n
      ((CAREER_DATABASE.map (fun e => recommend_one profile e.1 e.2)).insertionSort scoreGE)
    have hf := hpre.filter (fun r => decide (r.match_score = q))
    rw [filter_insertionSort_score] at hf
    exact hf

/-! ### Dict lemmas used by the gap analysis -/

theorem dictInsert_of_not_mem (d : List (String × String)) (k v : String)
    (h : ∀ kv ∈ d, kv.1 ≠ k) : dictInsert d k v = d ++ [(k, v)] := by
  unfold dictInsert
  rw [if_neg]
  simp only [List.any_eq_true, decide_eq_true_eq, not_exists, not_and]
  exact fun kv hkv => h kv hkv

theorem buildDict_go (l : List String) :
    ∀ d : List (String × String), (l.map lowerStr).Nodup →
      (∀ s ∈ l, ∀ kv ∈ d, kv.1 ≠ lowerStr s) →
      l.foldl (fun acc s => dictInsert acc (lowerStr s) s) d
        = d ++ l.map (fun s => (lowerStr s, s)) := by
  induction l with
  | nil => intro d _ _; simp
  | cons s t ih =>
    intro d hnd hdisj
    have hnd' : (t.map lowerStr).Nodup := by
      rw [List.map_cons, List.nodup_cons] at hnd
      exact hnd.2
    have hs_not : lowerStr s ∉ t.map lowerStr := by
      rw [List.map_cons, List.nodup_cons] at hnd
      exact hnd.1
    have hdisj' : ∀ s' ∈ t, ∀ kv ∈ d ++ [(lowerStr s, s)], kv.1 ≠ lowerStr s' := by
      intro s' hs' kv hkv
      rcases List.mem_append.1 hkv with hkv | hkv
      · exact hdisj s' (List.mem_cons_of_mem _ hs') kv hkv
      · have hkv' : kv = (lowerStr s, s) := by simpa using hkv
        subst hkv'
        intro heq
        have heq' : lowerStr s = lowerStr s' := heq
        rw [heq'] at hs_not
        exact hs_not (List.mem_map_of_mem lowerStr hs')
    rw [List.foldl_cons,
        dictInsert_of_not_mem d (lowerStr s) s (hdisj s (List.mem_cons_self s t)),
        ih (d ++ [(lowerStr s, s)]) hnd' hdisj']
    simp

theorem buildDict_eq (l : List String) (h : (l.map lowerStr).Nodup) :
    buildDict l = l.map (fun s => (lowerStr s, s)) := by
  have hgo := buildDict_go l [] h (by intro s _ kv hkv; simp at hkv)
  simpa [buildDict] using hgo

theorem dictGet_buildDict (l : List String) (h : (l.map lowerStr).Nodup) (k : String) :
    dictGet (buildDict l) k = l.find? (fun s => decide (lowerStr s = k)) := by
  rw [buildDict_eq l h]
  unfold dictGet
  rw [List.find?_map]
  have hmap : ((fun kv : String × String => decide (kv.1 = k))
      ∘ (fun s => (lowerStr s, s))) = fun s => decide (lowerStr s = k) := rfl
  rw [hmap, Option.map_map]
  have hsnd : (Prod.snd ∘ fun s : String => (lowerStr s, s)) = id := rfl
  rw [hsnd, Option.map_id]
  rfl

theorem map_lower_nodup_inj {l : List String} (h : (l.map lowerStr).Nodup)
    {a b : String} (ha : a ∈ l) (hb : b ∈ l) (heq : lowerStr a = lowerStr b) : a = b :=
  List.inj_on_of_nodup_map h ha hb heq

theorem filterMap_if_none (p : String → Prop) [DecidablePred p] :
    ∀ l : List String,
      (l.filterMap (fun s => if p s then none else some s))
        = l.filter (fun s => !(decide (p s))) := by
  intro l
  induction l with
  | nil => rfl
  | cons s t ih =>
    by_cases hs : p s <;> simp [List.filterMap_cons, List.filter_cons, hs, ih]

theorem missing_eq_filter (l user : List String) (h : (l.map lowerStr).Nodup) :
    (buildDict l).filterMap (fun kv => if kv.1 ∈ user then none else some kv.2)
      = l.filter (fun s => !(decide (lowerStr s ∈ user))) := by
  rw [buildDict_eq l h, List.filterMap_map]
  exact filterMap_if_none (fun s => lowerStr s ∈ user) l

theorem mem_matching_iff (l user : List String) (h : (l.map lowerStr).Nodup) (a : String) :
    a ∈ user.filterMap (fun k => dictGet (buildDict l) k)
      ↔ a ∈ l ∧ lowerStr a ∈ user := by
  constructor
  · intro hmem
    obtain ⟨k, hk, hget⟩ := List.mem_filterMap.1 hmem
    rw [dictGet_buildDict l h] at hget
    have hp := List.find?_some hget
    have hmem' := List.mem_of_find?_eq_some hget
    have hlow : lowerStr a = k := by simpa using hp
    exact ⟨hmem', hlow ▸ hk⟩
  · rintro ⟨hal, hlow⟩
    refine List.mem_filterMap.2 ⟨lowerStr a, hlow, ?_⟩
    rw [dictGet_buildDict l h]
    have hex : ∃ x, x ∈ l ∧ (fun s => decide (lowerStr s = lowerStr a)) x := by
      exact ⟨a, hal, by simp⟩
    obtain ⟨b, hfind⟩ := Option.isSome_iff_exists.1 (List.find?_isSome.2 hex)
    have hb := List.find?_some hfind
    have hbl := List.mem_of_find?_eq_some hfind
    have hba : b = a := map_lower_nodup_inj h hbl hal (by simpa using hb)
    rw [hfind, hba]

theorem nodup_matching (l user : List String) (h : (l.map lowerStr).Nodup)
    (hu : user.Nodup) :
    (user.filterMap (fun k => dictGet (buildDict l) k)).Nodup := by
  refine List.Nodup.filterMap ?_ hu
  intro k k' v hv hv'
  rw [Option.mem_def, dictGet_buildDict l h] at hv hv'
  have h1 : lowerStr v = k := by simpa using List.find?_some hv
  have h2 : lowerStr v = k' := by simpa using List.find?_some hv'
  rw [← h1, ← h2]

/-! ### The catalog itself has no case-colliding skill names -/

theorem catalog_nodup_lower :
    ∀ e ∈ CAREER_DATABASE,
      (e.2.required_skills.map lowerStr).Nodup ∧ (e.2.nice_to_have.map lowerStr).Nodup := by
  decide

theorem get_career_details_mem {target : String} {details : Career}
    (h : get_career_details target = some details) : (target, details) ∈ CAREER_DATABASE := by
  unfold get_career_details at h
  obtain ⟨e, hfind, hsnd⟩ := Option.map_eq_some'.1 h
  have h1 : e.1 = target := by simpa using List.find?_some hfind
  have h2 := List.mem_of_find?_eq_some hfind
  have : e = (target, details) := by
    cases e
    simp only at h1 hsnd
    rw [h1, hsnd]
  rwa [this] at h2

/-! ### C5: gap analysis partitions the required skills -/

/-- **C5.** analyzeGap fails exactly on unknown career names; for a known
career, matchingRequired and missingRequired are duplicate-free, disjoint,
and together cover the career's required skills exactly (case-insensitive
partition, output re-cased to catalog spelling), and completionPercentage
is matchingRequiredCount / requiredCount · 100 (0 when requiredCount = 0)
rounded to 2 decimals. -/
theorem gap_partition (profile : StudentProfile) (target : String) :
    ((∀ e ∈ CAREER_DATABASE, e.1 ≠ target) → analyze_skills_gap profile target = none)
    ∧ (∀ details gap, get_career_details target = some details →
        analyze_skills_gap profile target = some gap →
        gap.matching_required.Nodup
        ∧ gap.missing_required.Nodup
        ∧ (∀ s ∈ gap.matching_required, s ∉ gap.missing_required)
        ∧ (∀ s, s ∈ details.required_skills
              ↔ (s ∈ gap.matching_required ∨ s ∈ gap.missing_required))
        ∧ gap.completion_percentage
            = round2 (if details.required_skills = [] then 0
                      else (gap.matching_required.length : ℚ)
                            / (details.required_skills.length : ℚ) * 100)) := by
  constructor
  · intro habs
    have hnone : get_career_details target = none := by
      unfold get_career_details
      rw [List.find?_eq_none.2 (fun e he => by simpa using habs e he)]
      rfl
    simp [analyze_skills_gap, hnone]
  · intro details gap hdet hgap
    have hnd := (catalog_nodup_lower _ (get_career_details_mem hdet)).1
    have hmatch_eq :
        gap.matching_required = (setList [] (profile.skills.map lowerStr)).filterMap
          (fun k => dictGet (buildDict details.required_skills) k) := by
      rw [analyze_skills_gap, hdet] at hgap
      simp only [Option.some.injEq] at hgap
      rw [← hgap]
    have hmiss_eq :
        gap.missing_required = details.required_skills.filter
          (fun s => !(decide (lowerStr s ∈ setList [] (profile.skills.map lowerStr)))) := by
      rw [analyze_skills_gap, hdet] at hgap
      simp only [Option.some.injEq] at hgap
      rw [← hgap]
      exact missing_eq_filter details.required_skills _ hnd
    have hcomp_eq :
        gap.completion_percentage
          = round2 (if details.required_skills = [] then 0
                    else (gap.matching_required.length : ℚ)
                          / (details.required_skills.length : ℚ) * 100) := by
      rw [analyze_skills_gap, hdet] at hgap
      simp only [Option.some.injEq] at hgap
      rw [← hgap]
    refine ⟨?_, ?_, ?_, ?_, hcomp_eq⟩
    · rw [hmatch_eq]
      exact nodup_matching _ _ hnd (setList_nodup _ [])
    · rw [hmiss_eq]
      exact (hnd.of_map lowerStr).filter _
    · intro s hs
      rw [hmatch_eq] at hs
      rw [hmiss_eq]
      have hlow := ((mem_matching_iff _ _ hnd s).1 hs).2
      intro hcon
      have := (List.mem_filter.1 hcon).2
      simp only [Bool.not_eq_true', decide_eq_false_iff_not] at this
      exact this hlow
    · intro s
      constructor
      · intro hreq
        by_cases hlow : lowerStr s ∈ setList [] (profile.skills.map lowerStr)
        · exact Or.inl (by rw [hmatch_eq]; exact (mem_matching_iff _ _ hnd s).2 ⟨hreq, hlow⟩)
        · refine Or.inr ?_
          rw [hmiss_eq]
          refine List.mem_filter.2 ⟨hreq, ?_⟩
          simpa using hlow
      · intro hor
        rcases hor with hm | hm
        · rw [hmatch_eq] at hm
          exact ((mem_matching_iff _ _ hnd s).1 hm).1
        · rw [hmiss_eq] at hm
          exact (List.mem_filter.1 hm).1

/-- A default record used to extract concrete values from Option results. -/
def defaultCareer : Career := ⟨[], [], "", "", "", "", []⟩

/-- Profile used in the C5 witness. -/
def C5profile : StudentProfile := ⟨["Python", "SQL"], [], "Bachelor", none, none⟩

/-- The Data Scientist record, extracted from the catalog. -/
def C5career : Career := (get_career_details "Data Scientist").getD defaultCareer

/-- The gap analysis of the C5 witness profile against Data Scientist. -/
def C5gap : GapAnalysis :=
  (analyze_skills_gap C5profile "Data Scientist").getD ⟨"", [], [], [], [], [], [], [], 0, []⟩

/-- Witness for C5 at a concrete profile and career. -/
theorem gap_partition_witness :
    analyze_skills_gap C5profile "Astronaut" = none
    ∧ ("Python" ∈ C5career.required_skills
        ↔ ("Python" ∈ C5gap.matching_required ∨ "Python" ∈ C5gap.missing_required)) :=
  ⟨(gap_partition C5profile "Astronaut").1 (by decide),
   ((gap_partition C5profile "Data Scientist").2 C5career C5gap (by decide)
      (by decide)).2.2.2.1 "Python"⟩

/-! ### C6: NotFound handling asymmetry -/

theorem get_career_details_eq_none (target : String)
    (h : ∀ e ∈ CAREER_DATABASE, e.1 ≠ target) : get_career_details target = none := by
  unfold get_career_details
  rw [List.find?_eq_none.2 (fun e he => by simpa using h e he)]
  rfl

/-- **C6.** For a career name absent from the catalog the engine never
swallows the NotFound condition but handles it asymmetrically: analyzeGap
returns it as a typed failure (the error dict, modelled as `none`), while
buildLearningPath converts it to an empty module sequence rather than
propagating the error. -/
theorem notFound_asymmetry (profile : StudentProfile) (target : String)
    (h : ∀ e ∈ CAREER_DATABASE, e.1 ≠ target) :
    analyze_skills_gap profile target = none
    ∧ get_learning_path profile target = [] := by
  have hnone := get_career_details_eq_none target h
  have hgap : analyze_skills_gap profile target = none := by
    simp [analyze_skills_gap, hnone]
  exact ⟨hgap, by simp [get_learning_path, hgap]⟩

/-- Witness for C6 at a name absent from the catalog. -/
theorem notFound_asymmetry_witness :
    analyze_skills_gap ⟨["Python"], [], "Bachelor", none, none⟩ "Astronaut" = none
    ∧ get_learning_path ⟨["Python"], [], "Bachelor", none, none⟩ "Astronaut" = [] :=
  notFound_asymmetry ⟨["Python"], [], "Bachelor", none, none⟩ "Astronaut" (by decide)

/-! ### C10: career lookup is exact and case-sensitive -/

/-- **C10.** Career-name lookup is exact, case-sensitive string matching:
for every profile and every string not character-for-character equal to a
catalog key (including case variants of keys), the catalog lookup misses,
analyzeGap yields the NotFound failure and buildLearningPath yields the
empty sequence — unlike skill comparisons, which lowercase both sides. -/
theorem career_lookup_case_sensitive (profile : StudentProfile) (name : String)
    (h : ∀ e ∈ CAREER_DATABASE, e.1 ≠ name) :
    get_career_details name = none
    ∧ analyze_skills_gap profile name = none
    ∧ get_learning_path profile name = [] := by
  have hnone := get_career_details_eq_none name h
  have hgap : analyze_skills_gap profile name = none := by
    simp [analyze_skills_gap, hnone]
  exact ⟨hnone, hgap, by simp [get_learning_path, hgap]⟩

/-- Witness for C10: "data scientist" differs from the key "Data Scientist"
only in letter case, yet misses, while the exact key hits. -/
theorem career_lookup_case_sensitive_witness :
    (get_career_details "data scientist" = none
      ∧ analyze_skills_gap ⟨["python"], [], "Bachelor", none, none⟩ "data scientist" = none
      ∧ get_learning_path ⟨["python"], [], "Bachelor", none, none⟩ "data scientist" = [])
    ∧ get_career_details "Data Scientist" ≠ none :=
  ⟨career_lookup_case_sensitive ⟨["python"], [], "Bachelor", none, none⟩ "data scientist"
      (by decide),
   by decide⟩

/-! ### C7: learning-path shape and aggregate totals -/

theorem learning_path_eq (profile : StudentProfile) (target : String) (gap : GapAnalysis)
    (hgap : analyze_skills_gap profile target = some gap) :
    get_learning_path profile target
      = gap.priority_skills.enum.map (fun p =>
          { order := p.1 + 1, skill := p.2, difficulty := moduleDifficulty p.2,
            estimated_weeks := skill_time_estimates (moduleDifficulty p.2),
            resources := get_learning_resources p.2 }) := by
  simp [get_learning_path, hgap]

theorem weeks_of_difficulty (s : String) :
    skill_time_estimates (moduleDifficulty s)
      = (if moduleDifficulty s = "beginner" then 8
         else if moduleDifficulty s = "advanced" then 16 else 12) := by
  unfold moduleDifficulty
  by_cases h1 : s ∈ ["Python", "JavaScript", "HTML", "CSS", "Git"]
  · rw [if_pos h1]
    rfl
  · rw [if_neg h1]
    by_cases h2 : s ∈ ["Machine Learning", "Deep Learning", "System Design"]
    · rw [if_pos h2]
      rfl
    · rw [if_neg h2]
      rfl

/-- **C7.** For a career present in the catalog the learning path has at
most 5 modules; the i-th module carries order i+1 (1-based), its difficulty
is the fixed name lookup (Python/JavaScript/HTML/CSS/Git → beginner,
Machine Learning/Deep Learning/System Design → advanced, otherwise
intermediate), its estimatedWeeks is 8/12/16 by difficulty; and the
endpoint aggregate reports totalWeeks = sum of estimatedWeeks and
totalSkills = module count. -/
theorem learning_path_spec (profile : StudentProfile) (target : String) (details : Career)
    (h : get_career_details target = some details) :
    (get_learning_path profile target).length ≤ 5
    ∧ (∀ i (hi : i < (get_learning_path profile target).length),
        ((get_learning_path profile target).get ⟨i, hi⟩).order = i + 1
        ∧ ((get_learning_path profile target).get ⟨i, hi⟩).difficulty
            = (if ((get_learning_path profile target).get ⟨i, hi⟩).skill
                  ∈ ["Python", "JavaScript", "HTML", "CSS", "Git"] then "beginner"
               else if ((get_learning_path profile target).get ⟨i, hi⟩).skill
                  ∈ ["Machine Learning", "Deep Learning", "System Design"] then "advanced"
               else "intermediate")
        ∧ ((get_learning_path profile target).get ⟨i, hi⟩).estimated_weeks
            = (if ((get_learning_path profile target).get ⟨i, hi⟩).difficulty = "beginner"
                 then 8
               else if ((get_learning_path profile target).get ⟨i, hi⟩).difficulty = "advanced"
                 then 16
               else 12))
    ∧ (∀ resp, learning_path_endpoint profile target = some resp →
        resp.learning_path = get_learning_path profile target
        ∧ resp.total_weeks = (resp.learning_path.map (fun m => m.estimated_weeks)).sum
        ∧ resp.total_skills = resp.learning_path.length) := by
  obtain ⟨gap, hana⟩ : ∃ gap, analyze_skills_gap profile target = some gap := by
    rw [analyze_skills_gap, h]
    exact ⟨_, rfl⟩
  have hpath := learning_path_eq profile target gap hana
  have hprio : gap.priority_skills
      = gap.missing_required.take 3 ++ gap.missing_nice.take 2 := by
    rw [analyze_skills_gap, h] at hana
    simp only [Option.some.injEq] at hana
    rw [← hana]
  refine ⟨?_, ?_, ?_⟩
  · rw [hpath, List.length_map, List.enum_length, hprio, List.length_append]
    have h3 := List.length_take_le 3 gap.missing_required
    have h2 := List.length_take_le 2 gap.missing_nice
    omega
  · intro i hi
    have hi' : i < gap.priority_skills.enum.length := by
      rw [hpath, List.length_map] at hi
      exact hi
    have hget : (get_learning_path profile target).get ⟨i, hi⟩
        = { order := (gap.priority_skills.enum.get ⟨i, hi'⟩).1 + 1,
            skill := (gap.priority_skills.enum.get ⟨i, hi'⟩).2,
            difficulty := moduleDifficulty (gap.priority_skills.enum.get ⟨i, hi'⟩).2,
            estimated_weeks :=
              skill_time_estimates (moduleDifficulty (gap.priority_skills.enum.get ⟨i, hi'⟩).2),
            resources := get_learning_resources (gap.priority_skills.enum.get ⟨i, hi'⟩).2 } := by
      simp only [List.get_eq_getElem]
      rw [List.getElem_of_eq hpath hi, List.getElem_map]
    have hfst : (gap.priority_skills.enum.get ⟨i, hi'⟩).1 = i := by
      simp only [List.get_eq_getElem]
      rw [List.getElem_enum]
    refine ⟨?_, ?_, ?_⟩
    · rw [hget, hfst]
    · rw [hget]
      rfl
    · rw [hget]
      exact weeks_of_difficulty _
  · intro resp hresp
    simp only [learning_path_endpoint] at hresp
    by_cases hpe : (get_learning_path profile target).isEmpty
    · rw [if_pos hpe] at hresp
      exact absurd hresp (by simp)
    · rw [if_neg hpe] at hresp
      have hr := Option.some.inj hresp
      rw [← hr]
      exact ⟨rfl, rfl, rfl⟩

/-- Profile used in the C7 witness. -/
def C7profile : StudentProfile := ⟨["python", "react"], [], "Bachelor", none, none⟩

/-- The Frontend Developer record, extracted from the catalog. -/
def C7career : Career := (get_career_details "Frontend Developer").getD defaultCareer

/-- Witness for C7 at a concrete profile and career. -/
theorem learning_path_spec_witness :
    (get_learning_path C7profile "Frontend Developer").length ≤ 5 :=
  (learning_path_spec C7profile "Frontend Developer" C7career (by decide)).1

/-! ### C8: what each output list draws from, and its order (corrected) -/

/-- Profile exhibiting the C8 counterexample: the user-set iteration order
is AWS before Docker, while the DevOps Engineer catalog entry declares
Docker before AWS. -/
def C8profile : StudentProfile := ⟨["AWS", "Docker"], [], "Bachelor", none, some 0⟩

/-- The DevOps Engineer record, extracted from the catalog. -/
def C8career : Career := (get_career_details "DevOps Engineer").getD defaultCareer

/-- **C8 counterexample.** With user skills ["AWS", "Docker"], the DevOps
Engineer recommendation lists matchingSkills as ["AWS", "Docker"] — the
user-skill-set iteration order — which is not a sublist of the catalog's
required-skill order (Docker is declared before AWS there), so the matching
lists are not in catalog declaration order. -/
theorem matching_skills_order_counterexample :
    ((recommend_careers C8profile 12).find?
        (fun r => decide (r.career = "DevOps Engineer"))).map
      (fun r => r.matching_skills) = some ["AWS", "Docker"]
    ∧ ¬ List.Sublist ["AWS", "Docker"] C8career.required_skills := by
  constructor
  · decide
  · decide

/-- **C8 (amended).** Every engine output list draws only from the target
career's requiredSkills/niceToHaveSkills pools; skillsToLearn,
missingRequired and missingNice list their entries in catalog declaration
order (they are sublists of the catalog lists), and prioritySkills
concatenates missing-required entries first then missing-nice entries, each
part in catalog order; the matching lists (matchingSkills,
matchingRequired, matchingNice) instead follow the user-skill-set iteration
order, which need not be catalog order. -/
theorem engine_lists_amended (profile : StudentProfile) :
    (∀ target details gap, get_career_details target = some details →
      analyze_skills_gap profile target = some gap →
      List.Sublist gap.missing_required details.required_skills
      ∧ List.Sublist gap.missing_nice details.nice_to_have
      ∧ gap.priority_skills
          = gap.missing_required.take 3 ++ gap.missing_nice.take 2
      ∧ (∀ s ∈ gap.matching_required, s ∈ details.required_skills)
      ∧ (∀ s ∈ gap.matching_nice, s ∈ details.nice_to_have))
    ∧ (∀ top_n r, r ∈ recommend_careers profile top_n →
        ∃ e ∈ CAREER_DATABASE, r.career = e.1
          ∧ List.Sublist r.skills_to_learn e.2.required_skills
          ∧ (∀ s ∈ r.matching_skills, s ∈ e.2.required_skills)) := by
  constructor
  · intro target details gap hdet hgap
    have hmem := get_career_details_mem hdet
    have hndr := (catalog_nodup_lower _ hmem).1
    have hndn := (catalog_nodup_lower _ hmem).2
    have hmiss_eq : gap.missing_required = details.required_skills.filter
        (fun s => !(decide (lowerStr s ∈ setList [] (profile.skills.map lowerStr)))) := by
      rw [analyze_skills_gap, hdet] at hgap
      simp only [Option.some.injEq] at hgap
      rw [← hgap]
      exact missing_eq_filter details.required_skills _ hndr
    have hmissn_eq : gap.missing_nice = details.nice_to_have.filter
        (fun s => !(decide (lowerStr s ∈ setList [] (profile.skills.map lowerStr)))) := by
      rw [analyze_skills_gap, hdet] at hgap
      simp only [Option.some.injEq] at hgap
      rw [← hgap]
      exact missing_eq_filter details.nice_to_have _ hndn
    have hmatch_eq : gap.matching_required
        = (setList [] (profile.skills.map lowerStr)).filterMap
            (fun k => dictGet (buildDict details.required_skills) k) := by
      rw [analyze_skills_gap, hdet] at hgap
      simp only [Option.some.injEq] at hgap
      rw [← hgap]
    have hmatchn_eq : gap.matching_nice
        = (setList [] (profile.skills.map lowerStr)).filterMap
            (fun k => dictGet (buildDict details.nice_to_have) k) := by
      rw [analyze_skills_gap, hdet] at hgap
      simp only [Option.some.injEq] at hgap
      rw [← hgap]
    have hprio : gap.priority_skills
        = gap.missing_required.take 3 ++ gap.missing_nice.take 2 := by
      rw [analyze_skills_gap, hdet] at hgap
      simp only [Option.some.injEq] at hgap
      rw [← hgap]
    refine ⟨?_, ?_, hprio, ?_, ?_⟩
    · rw [hmiss_eq]
      exact List.filter_sublist _
    · rw [hmissn_eq]
      exact List.filter_sublist _
    · intro s hs
      rw [hmatch_eq] at hs
      exact ((mem_matching_iff _ _ hndr s).1 hs).1
    · intro s hs
      rw [hmatchn_eq] at hs
      exact ((mem_matching_iff _ _ hndn s).1 hs).1
  · intro top_n r hr
    have hr' : r ∈ (CAREER_DATABASE.map
        (fun e => recommend_one profile e.1 e.2)).insertionSort scoreGE :=
      List.mem_of_mem_take hr
    rw [List.mem_insertionSort] at hr'
    obtain ⟨e, he, rfl⟩ := List.mem_map.1 hr'
    have hndr := (catalog_nodup_lower e he).1
    refine ⟨e, he, rfl, ?_, ?_⟩
    · exact List.Sublist.trans (List.take_sublist 5 _) (List.filter_sublist _)
    · intro s hs
      have hs' : s ∈ (setList [] (profile.skills.map lowerStr)).filterMap
          (fun k => dictGet (buildDict e.2.required_skills) k) := hs
      exact ((mem_matching_iff _ _ hndr s).1 hs').1

/-- The DevOps gap analysis of the C8 profile, used in the witness. -/
def C8gap : GapAnalysis :=
  (analyze_skills_gap C8profile "DevOps Engineer").getD ⟨"", [], [], [], [], [], [], [], 0, []⟩

/-- Witness for the amended C8 at a concrete profile and career. -/
theorem engine_lists_amended_witness :
    List.Sublist C8gap.missing_required C8career.required_skills
    ∧ C8gap.priority_skills = C8gap.missing_required.take 3 ++ C8gap.missing_nice.take 2 := by
  have h := (engine_lists_amended C8profile).1 "DevOps Engineer" C8career C8gap
    (by decide) (by decide)
  exact ⟨h.1, h.2.2.1⟩

/-! ### C9: the end-to-end Data Scientist example -/

/-- The profile of the end-to-end example from the specification. -/
def C9profile : StudentProfile :=
  ⟨["Python", "SQL", "Machine Learning", "Statistics", "Pandas"], [], "Bachelor", none, some 3⟩

/-- The Data Scientist record, extracted from the catalog. -/
def C9career : Career := (get_career_details "Data Scientist").getD defaultCareer

/-- **C9.** For the profile with skills [Python, SQL, Machine Learning,
Statistics, Pandas], no interests and 3 years of experience, scored against
"Data Scientist": skillMatch is (5/10)·70 = 35 with no nice-to-have
overlap, the interest boost is 0, the experience boost is 5, the total
match score is exactly 40, and skillsToLearn is exactly
[Data Visualization, NumPy, Scikit-learn, Deep Learning, Data Analysis] in
catalog order. -/
theorem end_to_end_data_scientist :
    calculate_skill_match_score C9profile.skills C9career.required_skills
        C9career.nice_to_have = 35
    ∧ calculate_interest_boost C9profile.interests "Data Scientist" C9career = 0
    ∧ calculate_experience_match 3 C9career = 5
    ∧ ((recommend_careers C9profile 10).find?
          (fun r => decide (r.career = "Data Scientist"))).map
        (fun r => r.match_score) = some 40
    ∧ ((recommend_careers C9profile 10).find?
          (fun r => decide (r.career = "Data Scientist"))).map
        (fun r => r.skills_to_learn)
        = some ["Data Visualization", "NumPy", "Scikit-learn", "Deep Learning",
                "Data Analysis"] := by
  refine ⟨by decide, by decide, by decide, by decide, by decide⟩

/-- Witness for the amended C4 at a concrete profile. -/
theorem recommend_empty_skills_amended_witness :
    ((some 0 : Option Nat) = none ∨ (some 0 : Option Nat) = some 0)
    ∧ ((recommend_careers ⟨[], [], "B", none, some 0⟩ 10).length
          = min 10 CAREER_DATABASE.length
       ∧ ∀ r ∈ recommend_careers ⟨[], [], "B", none, some 0⟩ 10, r.match_score = 0) :=
  ⟨Or.inr rfl, recommend_empty_skills_amended "B" none (some 0) (Or.inr rfl) 10⟩

end Pathfinder
